import Mathlib

/-!
Verification of the Document Field Extraction & Tax-Line Mapping Engine.

Shallow embedding of the relevant parts of the repository:
* `src/lib/1099-to-1040-mapping.ts` — `Form1099ToForm1040Mapper`
  (`map1099ToForm1040`, `recalculateForm1040Totals`, `calculateTotalIncome`,
  `getStandardDeduction`, `calculateTaxLiability`);
* `src/src/forms/base/abstract-form.ts` — `AbstractForm1040.calculateTaxableIncome`;
* `src/lib/azure-document-intelligence-service.ts` —
  `validateAndCorrect1099MiscFields`, `detectFormType`, `detectSpecific1099Type`,
  `analyzeDocumentTypeFromOCR`, `extract1099IntFieldsFromOCR`,
  `selectPrimaryEmployeeRecord`, `normalizeNameForMatching`,
  `calculateNameSimilarity`.

Currency amounts are modelled as `ℚ` (the JavaScript source uses IEEE doubles,
but every concrete value appearing in the theorems below is exactly
representable and every operation used is exact on them).  A JavaScript value
that may be `undefined` is modelled as `Option ℚ`; `x || 0` becomes `orZero`,
and JavaScript truthiness of a numeric field (`undefined` and `0` are falsy)
becomes `jsTruthyQ`.  Console logging in the source is pure tracing and is
dropped.  String-valued personal-information handling (names, SSN formatting,
address parsing) in the mapper never touches any numeric form line and is
omitted from the form model.
-/

/-- JavaScript `x || 0` for a possibly-undefined numeric value. -/
def orZero (v : Option ℚ) : ℚ := v.getD 0

/-- JavaScript truthiness of a possibly-undefined numeric value:
`undefined` and `0` are falsy, every other number is truthy. -/
def jsTruthyQ (v : Option ℚ) : Prop := orZero v ≠ 0

instance (v : Option ℚ) : Decidable (jsTruthyQ v) := by unfold jsTruthyQ; infer_instance

/-- Filing statuses accepted by `getStandardDeduction` / `calculateTaxLiability`
(`src/lib/1099-to-1040-mapping.ts:718-749`). -/
inductive FilingStatus where
  | single
  | marriedFilingJointly
  | marriedFilingSeparately
  | headOfHousehold
  | qualifyingSurvivingSpouse
deriving DecidableEq

/-- The Form 1040 state (`Form1040Data`), restricted to the fields read or
written by the numeric mapping and recomputation code.  Side-schedule ledgers
(`scheduleA`, `schedule1`, `stateData`, `foreignTaxCredit`, `amtAdjustments`)
are flattened into the fields the mapper actually touches. -/
structure Form1040 where
  line1   : Option ℚ := none
  line2a  : Option ℚ := none
  line2b  : Option ℚ := none
  line3a  : Option ℚ := none
  line3b  : Option ℚ := none
  line4b  : Option ℚ := none
  line5b  : Option ℚ := none
  line6b  : Option ℚ := none
  line7   : Option ℚ := none
  line8   : Option ℚ := none
  line9   : Option ℚ := none
  line10  : Option ℚ := none
  line11  : Option ℚ := none
  line12  : Option ℚ := none
  line13  : Option ℚ := none
  line15  : Option ℚ := none
  line16  : Option ℚ := none
  line17  : Option ℚ := none
  line23  : Option ℚ := none
  line24  : Option ℚ := none
  line25a : Option ℚ := none
  line25b : Option ℚ := none
  line25c : Option ℚ := none
  line25d : Option ℚ := none
  line32  : Option ℚ := none
  line33  : Option ℚ := none
  line34  : Option ℚ := none
  line37  : Option ℚ := none
  filingStatus : Option FilingStatus := none
  scheduleA_stateTaxWithheld : Option ℚ := none
  scheduleA_investmentExpenses : Option ℚ := none
  schedule1_earlyWithdrawalPenalty : Option ℚ := none
  stateData_interestIncome : Option ℚ := none
  foreignTaxCredit_foreignTaxPaid : Option ℚ := none
  amt_privateActivityBondInterest : Option ℚ := none
deriving DecidableEq

/-- The empty accumulator state. -/
def emptyForm : Form1040 := {}

/-- One 1099 tax bracket (`{ min, max, rate }`); `hi = none` stands for the
source's `Infinity` upper bound. -/
structure TaxBracket where
  lo : ℚ
  hi : Option ℚ
  rate : ℚ

/-- 2023 brackets used by `calculateTaxLiability`
(`src/lib/1099-to-1040-mapping.ts:732-749`): the married-filing-jointly table
when the status is exactly `MARRIED_FILING_JOINTLY`, the single table
otherwise (including an absent status). -/
def brackets2023 (fs : Option FilingStatus) : List TaxBracket :=
  if fs = some FilingStatus.marriedFilingJointly then
    [⟨0, some 22000, 0.10⟩, ⟨22000, some 89450, 0.12⟩, ⟨89450, some 190750, 0.22⟩,
     ⟨190750, some 364200, 0.24⟩, ⟨364200, some 462500, 0.32⟩,
     ⟨462500, some 693750, 0.35⟩, ⟨693750, none, 0.37⟩]
  else
    [⟨0, some 11000, 0.10⟩, ⟨11000, some 44725, 0.12⟩, ⟨44725, some 95375, 0.22⟩,
     ⟨95375, some 182050, 0.24⟩, ⟨182050, some 231250, 0.32⟩,
     ⟨231250, some 578125, 0.35⟩, ⟨578125, none, 0.37⟩]

/-- The bracket loop of `calculateTaxLiability`: for each bracket in order,
tax the lesser of the remaining income and the bracket width, subtract it from
the remaining income, and stop once nothing remains.  `min remaining ∞` is
`remaining` for the last bracket. -/
def bracketTaxLoop : List TaxBracket → ℚ → ℚ → ℚ
  | [], _, tax => tax
  | b :: bs, remaining, tax =>
    if remaining ≤ 0 then tax
    else
      let atThis := match b.hi with
        | some m => min remaining (m - b.lo)
        | none => remaining
      bracketTaxLoop bs (remaining - atThis) (tax + atThis * b.rate)

/-- JavaScript `Math.round(x * 100) / 100` (round half toward plus infinity). -/
def jsRound2 (x : ℚ) : ℚ := (⌊x * 100 + 1/2⌋ : ℚ) / 100

/-- `calculateTaxLiability` (`src/lib/1099-to-1040-mapping.ts:730-763`). -/
def calculateTaxLiability (taxableIncome : ℚ) (fs : Option FilingStatus) : ℚ :=
  jsRound2 (bracketTaxLoop (brackets2023 fs) taxableIncome 0)

/-- `getStandardDeduction` (`src/lib/1099-to-1040-mapping.ts:718-728`); the
enumeration is closed, so the `|| SINGLE` fallback of the source is
unreachable here. -/
def getStandardDeduction : FilingStatus → ℚ
  | .single => 13850
  | .marriedFilingJointly => 27700
  | .marriedFilingSeparately => 13850
  | .headOfHousehold => 20800
  | .qualifyingSurvivingSpouse => 27700

/-- `calculateTotalIncome` (`src/lib/1099-to-1040-mapping.ts:705-716`). -/
def calculateTotalIncome (f : Form1040) : ℚ :=
  orZero f.line1 + orZero f.line2b + orZero f.line3b + orZero f.line4b +
  orZero f.line5b + orZero f.line6b + orZero f.line7 + orZero f.line8

/-- `recalculateForm1040Totals` (`src/lib/1099-to-1040-mapping.ts:664-703`),
as a pure state transformer.  Line 12 is filled with the standard deduction
only when it is JavaScript-falsy and a filing status is present.  The source
branches on `totalPayments > totalTax` and assigns lines 33/34/37 in each
branch; here the same condition selects each assigned value. -/
def recalculateForm1040Totals (f : Form1040) : Form1040 :=
  let l9 := calculateTotalIncome f
  let l11 := l9
  let l12 : Option ℚ :=
    match f.filingStatus with
    | some fs => if ¬ jsTruthyQ f.line12 then some (getStandardDeduction fs) else f.line12
    | none => f.line12
  let l15 := max 0 (l11 - orZero l12 - orZero f.line13)
  let l16 := calculateTaxLiability l15 f.filingStatus
  let l24 := l16 + orZero f.line17 + orZero f.line23
  let l32 := orZero f.line25a + orZero f.line25b + orZero f.line25c + orZero f.line25d
  { f with line9 := some l9, line11 := some l11, line12 := l12,
           line15 := some l15, line16 := some l16, line24 := some l24,
           line32 := some l32,
           line33 := some (if l24 < l32 then l32 - l24 else 0),
           line34 := some (if l24 < l32 then l32 - l24 else 0),
           line37 := some (if l24 < l32 then 0 else l24 - l32) }

/-- One extracted 1099 document, restricted to the numeric fields that
`map1099ToForm1040` reads.  Values are already normalized amounts
(`parseAmount` applied to `undefined` gives `0`, modelled by `orZero`). -/
structure Doc1099 where
  interestIncome : Option ℚ := none
  interestOnUSavingsBonds : Option ℚ := none
  taxExemptInterest : Option ℚ := none
  specifiedPrivateActivityBondInterest : Option ℚ := none
  marketDiscount : Option ℚ := none
  bondPremium : Option ℚ := none
  stateTaxWithheld : Option ℚ := none
  stateInterest : Option ℚ := none
  earlyWithdrawalPenalty : Option ℚ := none
  investmentExpenses : Option ℚ := none
  foreignTaxPaid : Option ℚ := none
  ordinaryDividends : Option ℚ := none
  qualifiedDividends : Option ℚ := none
  totalCapitalGain : Option ℚ := none
  rents : Option ℚ := none
  royalties : Option ℚ := none
  otherIncome : Option ℚ := none
  nonemployeeCompensation : Option ℚ := none
  federalTaxWithheld : Option ℚ := none
deriving DecidableEq

/-- An accumulating update `target = (target || 0) + amount`, guarded by
`if (amount > 0)` as in every additive mapping branch of
`map1099ToForm1040`. -/
def updAdd (amount : ℚ) (v : Option ℚ) : Option ℚ :=
  if 0 < amount then some (orZero v + amount) else v

/-- The Box 11 bond-premium reduction
(`src/lib/1099-to-1040-mapping.ts:133-137`):
`line2b = Math.max(0, (line2b || 0) - bondPremium)` when the premium is
positive, otherwise no change. -/
def applyBondPremiumStep (bondPremium : ℚ) (v : Option ℚ) : Option ℚ :=
  if 0 < bondPremium then some (max 0 (orZero v - bondPremium)) else v

/-- The sequence of Line 2b updates of `map1099ToForm1040` in source order:
Box 1 interest, Box 3 savings-bond interest, Box 10 market discount
(additive), then the Box 11 bond-premium reduction. -/
def updLine2b (d : Doc1099) (v : Option ℚ) : Option ℚ :=
  applyBondPremiumStep (orZero d.bondPremium)
    (updAdd (orZero d.marketDiscount)
      (updAdd (orZero d.interestOnUSavingsBonds)
        (updAdd (orZero d.interestIncome) v)))

/-- The sequence of Line 8 updates of `map1099ToForm1040` in source order:
rents, royalties, other income, nonemployee compensation. -/
def updLine8 (d : Doc1099) (v : Option ℚ) : Option ℚ :=
  updAdd (orZero d.nonemployeeCompensation)
    (updAdd (orZero d.otherIncome)
      (updAdd (orZero d.royalties)
        (updAdd (orZero d.rents) v)))

/-- The income/withholding/side-ledger deltas of `map1099ToForm1040`
(`src/lib/1099-to-1040-mapping.ts:96-243`) before the final recomputation.
Each conditional `+=` of the source touches a single field and reads only the
document and that field, so the sequential source updates are recorded as one
simultaneous record update; Box 9 private-activity-bond interest is a `set`,
not an accumulation, in the source. -/
def applyDocDeltas (d : Doc1099) (f : Form1040) : Form1040 :=
  { f with
    line2b := updLine2b d f.line2b,
    line2a := updAdd (orZero d.taxExemptInterest) f.line2a,
    amt_privateActivityBondInterest :=
      if 0 < orZero d.specifiedPrivateActivityBondInterest then
        some (orZero d.specifiedPrivateActivityBondInterest)
      else f.amt_privateActivityBondInterest,
    scheduleA_stateTaxWithheld :=
      updAdd (orZero d.stateTaxWithheld) f.scheduleA_stateTaxWithheld,
    stateData_interestIncome :=
      updAdd (orZero d.stateInterest) f.stateData_interestIncome,
    schedule1_earlyWithdrawalPenalty :=
      updAdd (orZero d.earlyWithdrawalPenalty) f.schedule1_earlyWithdrawalPenalty,
    scheduleA_investmentExpenses :=
      updAdd (orZero d.investmentExpenses) f.scheduleA_investmentExpenses,
    foreignTaxCredit_foreignTaxPaid :=
      updAdd (orZero d.foreignTaxPaid) f.foreignTaxCredit_foreignTaxPaid,
    line3b := updAdd (orZero d.ordinaryDividends) f.line3b,
    line3a := updAdd (orZero d.qualifiedDividends) f.line3a,
    line7 := updAdd (orZero d.totalCapitalGain) f.line7,
    line8 := updLine8 d f.line8,
    line25a := updAdd (orZero d.federalTaxWithheld) f.line25a }

/-- `map1099ToForm1040` (`src/lib/1099-to-1040-mapping.ts:96-253`): apply the
document's deltas, then recompute every derived total. -/
def map1099ToForm1040 (d : Doc1099) (f : Form1040) : Form1040 :=
  recalculateForm1040Totals (applyDocDeltas d f)

/-- The derived totals named by the order-independence property: total income
(line 9), taxable income (line 15), liability (line 16), refund (line 33) and
amount owed (line 37). -/
def derivedTotals (f : Form1040) : Option ℚ × Option ℚ × Option ℚ × Option ℚ × Option ℚ :=
  (f.line9, f.line15, f.line16, f.line33, f.line37)

/-- `AbstractForm1040.calculateTaxableIncome`
(`src/src/forms/base/abstract-form.ts:108-115`), with the form subclass's
standard deduction passed as a parameter: AGI minus the larger of the standard
deduction and line 12, minus the QBI deduction, clamped at zero.  AGI is
`calculateTotalIncome` minus line 10 (`calculateAGI`). -/
def abstractCalculateTaxableIncome (f : Form1040) (standardDeduction : ℚ) : ℚ :=
  let agi := calculateTotalIncome f - orZero f.line10
  max 0 (agi - max standardDeduction (orZero f.line12) - orZero f.line13)

/-- The wage-statement scenario state: wages 50,000.00 on line 1, federal
withholding 6,000.00 on line 25a, filing status SINGLE. -/
def c1ScenarioForm : Form1040 :=
  { emptyForm with line1 := some 50000, line25a := some 6000,
                   filingStatus := some FilingStatus.single }

/-- C4 counterexample document: a 1099-INT carrying only a Box 11 bond
premium of 100. -/
def c4DocPremium : Doc1099 := { bondPremium := some 100 }

/-- C4 counterexample document: a 1099-INT carrying only Box 1 interest
income of 50. -/
def c4DocInterest : Doc1099 := { interestIncome := some 50 }

/-- C4 witness document: a 1099-DIV carrying only ordinary dividends of 20. -/
def c4DocDividends : Doc1099 := { ordinaryDividends := some 20 }

/-! ## 1099-MISC reconciliation (`validateAndCorrect1099MiscFields`) -/

/-- The critical 1099-MISC box fields handled by the reconciliation pass
(`src/lib/azure-document-intelligence-service.ts:649-656`). -/
inductive MiscField where
  | otherIncome
  | fishingBoatProceeds
  | medicalHealthPayments
  | rents
  | royalties
  | federalTaxWithheld
deriving DecidableEq

/-- The critical numeric fields of one 1099-MISC extraction result; `none`
models a field the extractor did not populate.  `parseAmount` on an absent
field yields `0` in the source, which `orZero` models; JavaScript `NaN` never
arises for these already-numeric values. -/
structure MiscData where
  rents : Option ℚ := none
  royalties : Option ℚ := none
  otherIncome : Option ℚ := none
  federalTaxWithheld : Option ℚ := none
  fishingBoatProceeds : Option ℚ := none
  medicalHealthPayments : Option ℚ := none
deriving DecidableEq

/-- Field lookup, the dynamic `data[field]` access of the source. -/
def getMisc (d : MiscData) : MiscField → Option ℚ
  | .otherIncome => d.otherIncome
  | .fishingBoatProceeds => d.fishingBoatProceeds
  | .medicalHealthPayments => d.medicalHealthPayments
  | .rents => d.rents
  | .royalties => d.royalties
  | .federalTaxWithheld => d.federalTaxWithheld

/-- Field assignment, the dynamic `data[field] = v` of the source. -/
def setMisc (d : MiscData) : MiscField → Option ℚ → MiscData
  | .otherIncome, v => { d with otherIncome := v }
  | .fishingBoatProceeds, v => { d with fishingBoatProceeds := v }
  | .medicalHealthPayments, v => { d with medicalHealthPayments := v }
  | .rents, v => { d with rents := v }
  | .royalties, v => { d with royalties := v }
  | .federalTaxWithheld, v => { d with federalTaxWithheld := v }

/-- First reconciliation pass for one critical field
(`src/lib/azure-document-intelligence-service.ts:658-674`): with
`structuredValue = parseAmount(structured[field]) || 0` and likewise for OCR,
adopt the OCR value when the parsed values differ by more than 100, or when
the structured value is zero/falsy and the OCR value is positive; otherwise
keep the raw structured entry. -/
def firstPassField (s o : Option ℚ) : Option ℚ :=
  let sv := orZero s
  let ov := orZero o
  if 100 < |sv - ov| then some ov
  else if (sv = 0 ∨ ¬ jsTruthyQ s) ∧ 0 < ov then some ov
  else s

/-- The first pass over every critical field.  The source loops over
`criticalFields`, but each iteration reads only the original structured and
OCR entries of its own field, so the loop is one simultaneous update. -/
def firstPassMisc (s o : MiscData) : MiscData :=
  { rents := firstPassField s.rents o.rents,
    royalties := firstPassField s.royalties o.royalties,
    otherIncome := firstPassField s.otherIncome o.otherIncome,
    federalTaxWithheld := firstPassField s.federalTaxWithheld o.federalTaxWithheld,
    fishingBoatProceeds := firstPassField s.fishingBoatProceeds o.fishingBoatProceeds,
    medicalHealthPayments := firstPassField s.medicalHealthPayments o.medicalHealthPayments }

/-- Pattern 1 (`src/lib/azure-document-intelligence-service.ts:676-691`), the
other-income / fishing-boat-proceeds cross-contamination fix: it fires only
when the structured fishing-boat value is truthy, the structured other-income
is falsy, both OCR values are truthy, the structured fishing value is within
100 of the OCR other-income value, and the OCR fishing value differs from the
structured one; it then writes both OCR values into the corrected data. -/
def miscSwapPattern1 (s o : MiscData) (c : MiscData) : MiscData :=
  if jsTruthyQ s.fishingBoatProceeds ∧ ¬ jsTruthyQ s.otherIncome ∧
      jsTruthyQ o.otherIncome ∧ jsTruthyQ o.fishingBoatProceeds then
    let structuredFishing := orZero s.fishingBoatProceeds
    let ocrOther := orZero o.otherIncome
    let ocrFishing := orZero o.fishingBoatProceeds
    if |structuredFishing - ocrOther| < 100 ∧ ocrFishing ≠ structuredFishing then
      { c with otherIncome := some ocrOther, fishingBoatProceeds := some ocrFishing }
    else c
  else c

/-- The adjacent box pairs scanned by the second pass
(`src/lib/azure-document-intelligence-service.ts:694-700`). -/
def adjacentBoxPairs : List (MiscField × MiscField) :=
  [(.rents, .royalties), (.royalties, .otherIncome),
   (.otherIncome, .federalTaxWithheld), (.federalTaxWithheld, .fishingBoatProceeds),
   (.fishingBoatProceeds, .medicalHealthPayments)]

/-- One iteration of the second pass
(`src/lib/azure-document-intelligence-service.ts:702-717`): when all four
parsed values are strictly positive and the structured value of each field is
strictly within 100 of the OCR value of the other, both fields are set to
their OCR values.  The conditions read only the original structured and OCR
data, never the accumulated corrected data. -/
def miscSwapStep (s o : MiscData) (c : MiscData) (p : MiscField × MiscField) : MiscData :=
  let s1 := orZero (getMisc s p.1)
  let s2 := orZero (getMisc s p.2)
  let o1 := orZero (getMisc o p.1)
  let o2 := orZero (getMisc o p.2)
  if 0 < s1 ∧ 0 < s2 ∧ 0 < o1 ∧ 0 < o2 then
    if |s1 - o2| < 100 ∧ |s2 - o1| < 100 then
      setMisc (setMisc c p.1 (some o1)) p.2 (some o2)
    else c
  else c

/-- `validateAndCorrect1099MiscFields`
(`src/lib/azure-document-intelligence-service.ts:636-736`), with the OCR
text-pattern result passed as a parameter (the source computes it from the raw
text via `extract1099MiscFieldsFromOCR`): first pass per critical field, then
pattern 1, then the adjacent-pair swap scan. -/
def validateAndCorrect1099MiscFields (s o : MiscData) : MiscData :=
  adjacentBoxPairs.foldl (miscSwapStep s o) (miscSwapPattern1 s o (firstPassMisc s o))

/-- Claim C5 rule set exactly as the specification states it, for comparison
with `firstPassField`: adopt the text-pattern value when the structured value
is absent or zero and the text-pattern value is present and positive; adopt
the text-pattern value when both are present and the parsed values differ by
more than 100; otherwise keep the structured value. -/
def specReconcileRule (s o : Option ℚ) : Option ℚ :=
  if ¬ jsTruthyQ s ∧ o.isSome ∧ 0 < orZero o then o
  else if s.isSome ∧ o.isSome ∧ 100 < |orZero s - orZero o| then some (orZero o)
  else s

/-- C5 counterexample inputs: structured extraction found other income 500;
the text-pattern extractor found nothing at all. -/
def c5Structured : MiscData := { otherIncome := some 500 }

/-- C5 counterexample OCR result: every field absent. -/
def c5Ocr : MiscData := {}

/-- C5 witness inputs: structured rents 50 against text-pattern rents 260. -/
def c5WitnessStructured : MiscData := { rents := some 50 }

/-- C5 witness OCR result: rents 260. -/
def c5WitnessOcr : MiscData := { rents := some 260 }

/-- C6 counterexample structured data: Box 3 other income 150, Box 5 fishing
boat proceeds 200. -/
def c6Structured : MiscData := { otherIncome := some 150, fishingBoatProceeds := some 200 }

/-- C6 counterexample OCR data: Box 3 other income 210, Box 5 fishing boat
proceeds 140 — the swap signature of the claim, with every value positive. -/
def c6Ocr : MiscData := { otherIncome := some 210, fishingBoatProceeds := some 140 }

/-- C6 witness structured data: rents 200, royalties 300 (swapped). -/
def c6WitnessStructured : MiscData := { rents := some 200, royalties := some 300 }

/-- C6 witness OCR data: rents 300, royalties 200. -/
def c6WitnessOcr : MiscData := { rents := some 300, royalties := some 200 }

/-! ## Document classifier (`detectFormType`, `detectSpecific1099Type`) -/

/-- Per-character lowercasing.  The source calls JavaScript `toLowerCase()`;
every keyword below is ASCII, where the two agree. -/
def strToLower (s : String) : String := String.mk (s.data.map Char.toLower)

/-- Contiguous containment of one character sequence in another. -/
def listContainsSeq (needle : List Char) : List Char → Bool
  | [] => needle.isEmpty
  | c :: rest => needle.isPrefixOf (c :: rest) || listContainsSeq needle rest

/-- JavaScript `hay.includes(needle)`: contiguous substring containment. -/
def containsSubstr (hay needle : String) : Bool := listContainsSeq needle.toList hay.toList

/-- Number of indicators of a keyword list found in the text (the
`score++` loops of the classifier). -/
def countHits (text : String) (indicators : List String) : Nat :=
  (indicators.filter (fun i => containsSubstr text i)).length

/-- W2 keyword list of `detectFormType`
(`src/lib/azure-document-intelligence-service.ts:901-908`). -/
def w2Indicators : List String :=
  ["form w-2", "wage and tax statement", "wages, tips, other compensation",
   "federal income tax withheld", "social security wages", "medicare wages"]

/-- 1099 keyword list of `detectFormType`
(`src/lib/azure-document-intelligence-service.ts:911-917`). -/
def form1099Indicators : List String :=
  ["form 1099", "1099-", "payer", "recipient", "tin"]

/-- `detectFormType` (`src/lib/azure-document-intelligence-service.ts:897-944`):
count case-insensitive keyword hits for each family; W2 wins on a strictly
higher score, otherwise any positive 1099 score wins, otherwise UNKNOWN. -/
def detectFormType (ocrText : String) : String :=
  let text := strToLower ocrText
  let w2Score := countHits text w2Indicators
  let form1099Score := countHits text form1099Indicators
  if form1099Score < w2Score then "W2"
  else if 0 < form1099Score then "1099"
  else "UNKNOWN"

/-- 1099-DIV indicator list of `detectSpecific1099Type`
(`src/lib/azure-document-intelligence-service.ts:834-844`). -/
def div1099Indicators : List String :=
  ["form 1099-div", "dividends and distributions", "ordinary dividends",
   "qualified dividends", "total capital gain distributions", "capital gain distributions"]

/-- 1099-INT indicator list
(`src/lib/azure-document-intelligence-service.ts:845-854`). -/
def int1099Indicators : List String :=
  ["form 1099-int", "interest income", "early withdrawal penalty",
   "interest on u.s. treasury obligations", "investment expenses"]

/-- 1099-MISC indicator list
(`src/lib/azure-document-intelligence-service.ts:855-865`). -/
def misc1099Indicators : List String :=
  ["form 1099-misc", "miscellaneous income", "nonemployee compensation",
   "rents", "royalties", "fishing boat proceeds"]

/-- 1099-NEC indicator list
(`src/lib/azure-document-intelligence-service.ts:866-873`). -/
def nec1099Indicators : List String :=
  ["form 1099-nec", "nonemployee compensation", "nec"]

/-- The ordered subtype pattern table of `detectSpecific1099Type`. -/
def formTypePatterns : List (String × List String) :=
  [("FORM_1099_DIV", div1099Indicators), ("FORM_1099_INT", int1099Indicators),
   ("FORM_1099_MISC", misc1099Indicators), ("FORM_1099_NEC", nec1099Indicators)]

/-- `detectSpecific1099Type`
(`src/lib/azure-document-intelligence-service.ts:827-895`): best match starts
at `FORM_1099_MISC` with score 0 and is replaced whenever a subtype scores
strictly higher. -/
def detectSpecific1099Type (ocrText : String) : String :=
  let text := strToLower ocrText
  (formTypePatterns.foldl
    (fun best p =>
      let score := countHits text p.2
      if best.2 < score then (p.1, score) else best)
    ("FORM_1099_MISC", 0)).1

/-- `analyzeDocumentTypeFromOCR`
(`src/lib/azure-document-intelligence-service.ts:809-825`). -/
def analyzeDocumentTypeFromOCR (ocrText : String) : String :=
  let formType := detectFormType ocrText
  if formType = "W2" then "W2"
  else if formType = "1099" then detectSpecific1099Type ocrText
  else "UNKNOWN"

/-! ## 1099-INT text-pattern extraction (`extract1099IntFieldsFromOCR`) -/

/-- One token of the dynamically built box-section regex of
`extract1099IntFieldsFromOCR`
(`src/lib/azure-document-intelligence-service.ts:2387`):
`` `${box}\s+${label}([\s\S]*?)(?=${next}\s+|$)` `` with flag `i`.  A label is
a sequence of literal characters with the occasional escaped optional dot
(`\.?`); `wsp` is `\s+`. -/
inductive PatToken where
  | lit (c : Char)
  | opt (c : Char)
  | wsp
deriving DecidableEq

/-- Case-insensitive character comparison (regex flag `i`). -/
def charEqCI (a b : Char) : Bool := a.toLower == b.toLower

/-- Backtracking matcher for a token sequence at the head of a character
sequence; returns the remainder after a successful match.  `opt` and `wsp`
consume greedily and backtrack, as the source regex engine does. -/
def matchToks : List PatToken → List Char → Option (List Char)
  | [], s => some s
  | .lit c :: ts, d :: s => if charEqCI c d then matchToks ts s else none
  | .lit _ :: _, [] => none
  | .opt c :: ts, d :: s =>
    if charEqCI c d then
      match matchToks ts s with
      | some r => some r
      | none => matchToks ts (d :: s)
    else matchToks ts (d :: s)
  | .opt _ :: ts, [] => matchToks ts []
  | .wsp :: ts, d :: s =>
    if d.isWhitespace then
      match matchToks (.wsp :: ts) s with
      | some r => some r
      | none => matchToks ts s
    else none
  | .wsp :: _, [] => none
termination_by ts s => (s.length, ts.length)

/-- Leftmost match: try the token sequence at every position in order. -/
def scanMatch (pat : List PatToken) : List Char → Option (List Char)
  | [] => matchToks pat []
  | c :: t =>
    match matchToks pat (c :: t) with
    | some r => some r
    | none => scanMatch pat t

/-- The lazy capture `([\s\S]*?)` bounded by the lookahead
`(?=${next}\s+|$)`: take characters until the first position where the
lookahead matches, or to the end of the input. -/
def captureLazy (lookahead : List PatToken) : List Char → List Char
  | [] => []
  | c :: rest =>
    if (matchToks lookahead (c :: rest)).isSome then []
    else c :: captureLazy lookahead rest

/-- Literal tokens for a plain string fragment of a label. -/
def litToks (s : String) : List PatToken := s.toList.map PatToken.lit

/-- The box-section search of `extractFieldValue`
(`src/lib/azure-document-intelligence-service.ts:2387-2393`): `none` when the
section regex does not match, otherwise the captured section. -/
def findBoxSection (ocrText : String) (box : String) (label : List PatToken)
    (next : String) : Option (List Char) :=
  match scanMatch (litToks box ++ [PatToken.wsp] ++ label) ocrText.toList with
  | some r => some (captureLazy (litToks next ++ [PatToken.wsp]) r)
  | none => none

/-- A character of the value-pattern class `[0-9,]`. -/
def isNumChar (c : Char) : Bool := c.isDigit || c == ','

/-- First match of the value pattern `([0-9,]+\.?\d{0,2})` in a section: at
the first digit-or-comma, the maximal run of that class, then an optional
decimal point followed by up to two digits. -/
def firstValueMatch : List Char → Option (List Char)
  | [] => none
  | c :: rest =>
    if isNumChar c then
      let run := (c :: rest).takeWhile isNumChar
      let after := (c :: rest).drop run.length
      match after with
      | '.' :: t => some (run ++ '.' :: (t.takeWhile Char.isDigit).take 2)
      | _ => some run
    else firstValueMatch rest

/-- Digit run to a natural number. -/
def digitsToNat (ds : List Char) : Nat :=
  ds.foldl (fun n c => 10 * n + (c.toNat - 48)) 0

/-- JavaScript `parseFloat` on the comma-stripped value match.  The match
always begins with a digit or comma; for a match containing no digit at all
(a bare comma run) `parseFloat` yields `NaN`, a corner no theorem below
touches, modelled here as 0. -/
def parseDecimal (s : List Char) : ℚ :=
  let t := s.filter (fun c => c ≠ ',')
  let intPart := t.takeWhile Char.isDigit
  let rest := t.drop intPart.length
  let fracPart := match rest with
    | '.' :: u => u.takeWhile Char.isDigit
    | _ => []
  (digitsToNat intPart : ℚ) + (digitsToNat fracPart : ℚ) / (10 : ℚ) ^ fracPart.length

/-- The `extractFieldValue` helper
(`src/lib/azure-document-intelligence-service.ts:2383-2417`): 0 when the box
section is not found, 0 when the section holds no numeric value (empty or
otherwise), else the parsed first numeric value. -/
def extractFieldValue (ocrText : String) (box : String) (label : List PatToken)
    (next : String) : ℚ :=
  match findBoxSection ocrText box label next with
  | none => 0
  | some sect =>
    match firstValueMatch sect with
    | some m => parseDecimal m
    | none => 0

/-- Label of Box 1. -/
def interestIncomeLabel : List PatToken := litToks "Interest income"

/-- Label of Box 2. -/
def earlyWithdrawalLabel : List PatToken := litToks "Early withdrawal penalty"

/-- Label of Box 3, `Interest on U\.?S\.? Savings Bonds and Treasury
obligations`. -/
def savingsBondsLabel : List PatToken :=
  litToks "Interest on U" ++ [PatToken.opt '.'] ++ litToks "S" ++ [PatToken.opt '.'] ++
    litToks " Savings Bonds and Treasury obligations"

/-- Label of Box 4. -/
def fedWithheldLabel : List PatToken := litToks "Federal income tax withheld"

/-- Label of Box 5. -/
def investmentExpensesLabel : List PatToken := litToks "Investment expenses"

/-- Label of Box 6. -/
def foreignTaxLabel : List PatToken := litToks "Foreign tax paid"

/-- Label of Box 8. -/
def taxExemptLabel : List PatToken := litToks "Tax-exempt interest"

/-- Label of Box 9. -/
def pabInterestLabel : List PatToken := litToks "Specified private activity bond interest"

/-- Label of Box 10. -/
def marketDiscountLabel : List PatToken := litToks "Market discount"

/-- Label of Box 11. -/
def bondPremiumLabel : List PatToken := litToks "Bond premium"

/-- Label of Box 13. -/
def stateTaxWithheldLabel : List PatToken := litToks "State tax withheld"

/-- Label of Box 15. -/
def stateInterestLabel : List PatToken := litToks "State interest"

/-- The canonical numeric fields of the 1099-INT text-pattern extractor;
`none` models a field absent from the output object. -/
structure Int1099Fields where
  interestIncome : Option ℚ := none
  earlyWithdrawalPenalty : Option ℚ := none
  interestOnUSavingsBonds : Option ℚ := none
  federalTaxWithheld : Option ℚ := none
  investmentExpenses : Option ℚ := none
  foreignTaxPaid : Option ℚ := none
  taxExemptInterest : Option ℚ := none
  specifiedPrivateActivityBondInterest : Option ℚ := none
  marketDiscount : Option ℚ := none
  bondPremium : Option ℚ := none
  stateTaxWithheld : Option ℚ := none
  stateInterest : Option ℚ := none
deriving DecidableEq

/-- A base record with every numeric field absent. -/
def emptyIntFields : Int1099Fields := {}

/-- The numeric part of `extract1099IntFieldsFromOCR`
(`src/lib/azure-document-intelligence-service.ts:2368-2467`): every numeric
field is unconditionally assigned `extractFieldValue(...)`, with the box
numbers, labels and next-box anchors of the source.  The two text fields
(boxes 7 and 14) and the personal-information extraction never touch the
numeric fields and are omitted. -/
def extract1099IntFieldsFromOCR (ocrText : String) (base : Int1099Fields) : Int1099Fields :=
  { base with
    interestIncome := some (extractFieldValue ocrText "1" interestIncomeLabel "2"),
    earlyWithdrawalPenalty := some (extractFieldValue ocrText "2" earlyWithdrawalLabel "3"),
    interestOnUSavingsBonds := some (extractFieldValue ocrText "3" savingsBondsLabel "4"),
    federalTaxWithheld := some (extractFieldValue ocrText "4" fedWithheldLabel "5"),
    investmentExpenses := some (extractFieldValue ocrText "5" investmentExpensesLabel "6"),
    foreignTaxPaid := some (extractFieldValue ocrText "6" foreignTaxLabel "7"),
    taxExemptInterest := some (extractFieldValue ocrText "8" taxExemptLabel "9"),
    specifiedPrivateActivityBondInterest :=
      some (extractFieldValue ocrText "9" pabInterestLabel "10"),
    marketDiscount := some (extractFieldValue ocrText "10" marketDiscountLabel "11"),
    bondPremium := some (extractFieldValue ocrText "11" bondPremiumLabel "13"),
    stateTaxWithheld := some (extractFieldValue ocrText "13" stateTaxWithheldLabel "14"),
    stateInterest := some (extractFieldValue ocrText "15" stateInterestLabel "16") }

/-! ## Multi-entity selection (`selectPrimaryEmployeeRecord`) -/

/-- Leading/trailing-whitespace trim (JavaScript `trim()`). -/
def trimWs (s : List Char) : List Char :=
  ((s.dropWhile Char.isWhitespace).reverse.dropWhile Char.isWhitespace).reverse

/-- Collapse every whitespace run into a single space (JavaScript
`replace(/\s+/g, ' ')`); the flag records whether the previous character was
whitespace. -/
def squashWsAux : Bool → List Char → List Char
  | _, [] => []
  | prevWs, c :: rest =>
    if c.isWhitespace then
      if prevWs then squashWsAux true rest
      else ' ' :: squashWsAux true rest
    else c :: squashWsAux false rest

/-- Collapse whitespace runs, starting outside a run. -/
def squashWs (s : List Char) : List Char := squashWsAux false s

/-- `normalizeNameForMatching`
(`src/lib/azure-document-intelligence-service.ts:1898-1900`): trim, uppercase,
collapse inner whitespace.  Uppercasing is per character, which agrees with
JavaScript `toUpperCase()` on the ASCII names involved. -/
def normalizeNameForMatching (name : String) : String :=
  String.mk (squashWs ((trimWs name.data).map Char.toUpper))

/-- JavaScript `split(' ')` on a character list: split at every single space
character (the empty input yields one empty word). -/
def splitOnSpaceAux : List Char → List Char → List (List Char)
  | acc, [] => [acc.reverse]
  | acc, c :: rest =>
    if c = ' ' then acc.reverse :: splitOnSpaceAux [] rest
    else splitOnSpaceAux (c :: acc) rest

/-- JavaScript `s.split(' ')`. -/
def splitOnSpaceChars (s : List Char) : List (List Char) := splitOnSpaceAux [] s

/-- The per-record target test of the selection loop
(`src/lib/azure-document-intelligence-service.ts:1828-1847`): an exact match
of the normalized names, or every word of the normalized target appearing
among the record's normalized words.  The loop returns the record on either
branch, so the two checks combine into one disjunction. -/
def nameMatchesTarget (target recName : String) : Bool :=
  let nt := normalizeNameForMatching target
  let nr := normalizeNameForMatching recName
  nt == nr ||
    (splitOnSpaceChars nt.data).all (fun w => (splitOnSpaceChars nr.data).contains w)

/-- One detected employee block (the record shape consumed by
`selectPrimaryEmployeeRecord`). -/
structure EmployeeRecord where
  name : Option String := none
  ssn : Option String := none
  address : Option String := none
  confidence : ℚ := 0
  sourceText : String := ""
deriving DecidableEq

/-- Whether a record's name matches the target (absent names never match). -/
def recordMatches (t : String) (r : EmployeeRecord) : Bool :=
  match r.name with
  | some n => nameMatchesTarget t n
  | none => false

/-- JavaScript truthiness of a possibly-undefined string: `undefined` and the
empty string are falsy. -/
def jsTruthyS (v : Option String) : Prop := v.getD "" ≠ ""

instance (v : Option String) : Decidable (jsTruthyS v) := by unfold jsTruthyS; infer_instance

/-- `calculateNameSimilarity`
(`src/lib/azure-document-intelligence-service.ts:1905-1925`): 1 for equal
normalized names, else the ratio of matching words to the larger word
count. -/
def calculateNameSimilarity (n1 n2 : String) : ℚ :=
  let a := normalizeNameForMatching n1
  let b := normalizeNameForMatching n2
  if a = b then 1
  else
    let w1 := splitOnSpaceChars a.data
    let w2 := splitOnSpaceChars b.data
    let matching := (w1.filter (fun w => w2.contains w)).length
    (matching : ℚ) / (max w1.length w2.length : ℚ)

/-- The composite score of the fallback path
(`src/lib/azure-document-intelligence-service.ts:1853-1878`): base confidence,
completeness bonuses (+10 name, +20 SSN, +15 address), a −10 penalty for
names shorter than six characters, +5 for names not containing inc/llc/corp,
and up to +30 for similarity to the target name when one was supplied. -/
def scoreRecord (target : Option String) (r : EmployeeRecord) : ℚ :=
  r.confidence
  + (if jsTruthyS r.name then 10 else 0)
  + (if jsTruthyS r.ssn then 20 else 0)
  + (if jsTruthyS r.address then 15 else 0)
  + (if jsTruthyS r.name ∧ (r.name.getD "").length < 6 then -10 else 0)
  + (if jsTruthyS r.name ∧
        ¬ (containsSubstr (strToLower (r.name.getD "")) "inc" = true ∨
           containsSubstr (strToLower (r.name.getD "")) "llc" = true ∨
           containsSubstr (strToLower (r.name.getD "")) "corp" = true) then 5 else 0)
  + (if jsTruthyS target ∧ jsTruthyS r.name then
       calculateNameSimilarity (target.getD "") (r.name.getD "") * 30 else 0)

/-- The scoring fallback: the source attaches a `finalScore` to every record,
stable-sorts descending and takes the head, i.e. the first record attaining
the maximal score — computed here as a left fold keeping the current best and
replacing it only on a strictly greater score. -/
def pickBest (target : Option String) (r0 : EmployeeRecord) (rs : List EmployeeRecord) :
    EmployeeRecord :=
  rs.foldl (fun best r => if scoreRecord target best < scoreRecord target r then r else best) r0

/-- `selectPrimaryEmployeeRecord`
(`src/lib/azure-document-intelligence-service.ts:1793-1893`): no record gives
nothing; a single record is returned as-is; otherwise, with a truthy target
name, the first record whose name matches is returned, and only when none
matches does the composite-score fallback run. -/
def selectPrimaryEmployeeRecord (records : List EmployeeRecord) (target : Option String) :
    Option EmployeeRecord :=
  match records with
  | [] => none
  | [r] => some r
  | r0 :: r1 :: rest =>
    let found := if jsTruthyS target
      then (r0 :: r1 :: rest).find? (recordMatches (target.getD ""))
      else none
    match found with
    | some r => some r
    | none => some (pickBest target r0 (r1 :: rest))

/-- C9 witness record: a non-matching first block. -/
def demoRecordA : EmployeeRecord :=
  { name := some "Taylor Reed", ssn := some "123-45-6789",
    address := some "12 Oak St Springfield IL 62704", confidence := 85,
    sourceText := "block one" }

/-- C9 witness record: the target person, detected second. -/
def demoRecordB : EmployeeRecord :=
  { name := some "Jordan Blake", ssn := some "987-65-4321",
    address := some "9 Elm Ave Portland OR 97201", confidence := 70,
    sourceText := "block two" }

/-! ## Helper lemmas -/

/-- A chain of guarded accumulating updates, innermost first. -/
def addChain (xs : List ℚ) (v : Option ℚ) : Option ℚ := xs.foldr updAdd v

theorem updAdd_comm (a b : ℚ) (v : Option ℚ) :
    updAdd a (updAdd b v) = updAdd b (updAdd a v) := by
  unfold updAdd orZero
  split_ifs <;> simp
  ring

theorem updAdd_addChain (a : ℚ) (ys : List ℚ) (v : Option ℚ) :
    updAdd a (addChain ys v) = addChain ys (updAdd a v) := by
  induction ys generalizing v with
  | nil => rfl
  | cons b ys ih =>
    show updAdd a (updAdd b (addChain ys v)) = updAdd b (addChain ys (updAdd a v))
    rw [updAdd_comm, ih]

theorem addChain_comm (xs ys : List ℚ) (v : Option ℚ) :
    addChain xs (addChain ys v) = addChain ys (addChain xs v) := by
  induction xs generalizing v with
  | nil => rfl
  | cons a xs ih =>
    show updAdd a (addChain xs (addChain ys v)) = addChain ys (updAdd a (addChain xs v))
    rw [ih, updAdd_addChain]

theorem recalc_line12_of_no_status (f : Form1040) (h : f.filingStatus = none) :
    (recalculateForm1040Totals f).line12 = f.line12 := by
  show (match f.filingStatus with
    | some fs => if ¬ jsTruthyQ f.line12 then some (getStandardDeduction fs) else f.line12
    | none => f.line12) = f.line12
  rw [h]

theorem updLine2b_nobp (d : Doc1099) (h : ¬ 0 < orZero d.bondPremium) (v : Option ℚ) :
    updLine2b d v =
      addChain [orZero d.marketDiscount, orZero d.interestOnUSavingsBonds,
        orZero d.interestIncome] v := by
  simp [updLine2b, applyBondPremiumStep, h, addChain]

theorem updLine2b_comm (d1 d2 : Doc1099) (h1 : ¬ 0 < orZero d1.bondPremium)
    (h2 : ¬ 0 < orZero d2.bondPremium) (v : Option ℚ) :
    updLine2b d2 (updLine2b d1 v) = updLine2b d1 (updLine2b d2 v) := by
  rw [updLine2b_nobp d1 h1, updLine2b_nobp d2 h2, updLine2b_nobp d2 h2,
    updLine2b_nobp d1 h1, addChain_comm]

theorem updLine8_comm (d1 d2 : Doc1099) (v : Option ℚ) :
    updLine8 d2 (updLine8 d1 v) = updLine8 d1 (updLine8 d2 v) := by
  show addChain [orZero d2.nonemployeeCompensation, orZero d2.otherIncome,
      orZero d2.royalties, orZero d2.rents]
      (addChain [orZero d1.nonemployeeCompensation, orZero d1.otherIncome,
        orZero d1.royalties, orZero d1.rents] v) = _
  rw [addChain_comm]
  rfl

/-- Recomputation of the derived totals reads only the primitive accumulated
lines: two states that agree on them produce equal derived totals. -/
theorem derivedTotals_recalc_congr (s t : Form1040)
    (h1 : s.line1 = t.line1) (h2b : s.line2b = t.line2b) (h3b : s.line3b = t.line3b)
    (h4b : s.line4b = t.line4b) (h5b : s.line5b = t.line5b) (h6b : s.line6b = t.line6b)
    (h7 : s.line7 = t.line7) (h8 : s.line8 = t.line8) (h12 : s.line12 = t.line12)
    (h13 : s.line13 = t.line13) (hfs : s.filingStatus = t.filingStatus)
    (h17 : s.line17 = t.line17) (h23 : s.line23 = t.line23)
    (h25a : s.line25a = t.line25a) (h25b : s.line25b = t.line25b)
    (h25c : s.line25c = t.line25c) (h25d : s.line25d = t.line25d) :
    derivedTotals (recalculateForm1040Totals s) =
      derivedTotals (recalculateForm1040Totals t) := by
  unfold derivedTotals recalculateForm1040Totals calculateTotalIncome
  dsimp only
  rw [h1, h2b, h3b, h4b, h5b, h6b, h7, h8, h12, h13, hfs, h17, h23, h25a, h25b, h25c, h25d]

/-- Case analysis on the refund/owed branch of the recomputation, stated over
the two totals it compares. -/
theorem refundOwedAux (A B : ℚ) :
    (0 ≤ (if A < B then B - A else 0) ∧ 0 ≤ (if A < B then 0 else A - B)) ∧
    ((if A < B then B - A else 0) = 0 ∨ (if A < B then 0 else A - B) = 0) ∧
    (A < B → (some (if A < B then B - A else 0) : Option ℚ) = some (B - A) ∧
      (some (if A < B then 0 else A - B) : Option ℚ) = some 0) ∧
    (B ≤ A → (some (if A < B then B - A else 0) : Option ℚ) = some 0 ∧
      (some (if A < B then 0 else A - B) : Option ℚ) = some (A - B)) := by
  split_ifs with h
  · exact ⟨⟨by linarith, le_refl 0⟩, Or.inr rfl, fun _ => ⟨rfl, rfl⟩,
      fun hc => absurd h (not_lt.mpr hc)⟩
  · exact ⟨⟨le_refl 0, by linarith [not_lt.mp h]⟩, Or.inl rfl, fun hc => absurd hc h,
      fun _ => ⟨rfl, rfl⟩⟩

/-! ## Claim theorems: tax computation and mapping -/

/-- C1: on a wage-statement document with wages 50,000.00 (line 1) and federal
withholding 6,000.00 (line 25a), filing status SINGLE with the 2023 standard
deduction 13,850, the full recomputation yields taxable income 36,150.00,
bracket liability 4,118.00, refund 1,882.00 and amount owed 0. -/
theorem c1_wage_scenario_recomputation :
    (recalculateForm1040Totals c1ScenarioForm).line12 = some 13850 ∧
    (recalculateForm1040Totals c1ScenarioForm).line15 = some 36150 ∧
    (recalculateForm1040Totals c1ScenarioForm).line16 = some 4118 ∧
    (recalculateForm1040Totals c1ScenarioForm).line33 = some 1882 ∧
    (recalculateForm1040Totals c1ScenarioForm).line37 = some 0 := by
  norm_num [recalculateForm1040Totals, c1ScenarioForm, emptyForm, calculateTotalIncome,
    calculateTaxLiability, brackets2023, bracketTaxLoop, jsRound2, min_def, orZero,
    jsTruthyQ, getStandardDeduction]

/-- C2: after recomputation, if total payments (line 32) strictly exceed total
tax (line 24) then the refund (line 33) is the difference and the amount owed
(line 37) is zero, otherwise the refund is zero and the amount owed is the
difference; the two are never both nonzero and neither is ever negative. -/
theorem c2_refund_owed_recomputation (f : Form1040) :
    (0 ≤ orZero (recalculateForm1040Totals f).line33 ∧
      0 ≤ orZero (recalculateForm1040Totals f).line37) ∧
    (orZero (recalculateForm1040Totals f).line33 = 0 ∨
      orZero (recalculateForm1040Totals f).line37 = 0) ∧
    (orZero (recalculateForm1040Totals f).line24 < orZero (recalculateForm1040Totals f).line32 →
      (recalculateForm1040Totals f).line33 =
        some (orZero (recalculateForm1040Totals f).line32 -
          orZero (recalculateForm1040Totals f).line24) ∧
      (recalculateForm1040Totals f).line37 = some 0) ∧
    (orZero (recalculateForm1040Totals f).line32 ≤ orZero (recalculateForm1040Totals f).line24 →
      (recalculateForm1040Totals f).line33 = some 0 ∧
      (recalculateForm1040Totals f).line37 =
        some (orZero (recalculateForm1040Totals f).line24 -
          orZero (recalculateForm1040Totals f).line32)) :=
  refundOwedAux _ _

/-- C2 witness: the dichotomy instantiated at the wage-statement scenario
state, where payments 6,000 exceed tax 4,118 and the refund branch fires. -/
theorem c2_refund_owed_recomputation_witness :
    (recalculateForm1040Totals c1ScenarioForm).line33 =
      some (orZero (recalculateForm1040Totals c1ScenarioForm).line32 -
        orZero (recalculateForm1040Totals c1ScenarioForm).line24) ∧
    (recalculateForm1040Totals c1ScenarioForm).line37 = some 0 :=
  (c2_refund_owed_recomputation c1ScenarioForm).2.2.1 (by
    norm_num [recalculateForm1040Totals, c1ScenarioForm, emptyForm, calculateTotalIncome,
      calculateTaxLiability, brackets2023, bracketTaxLoop, jsRound2, min_def, orZero,
      jsTruthyQ, getStandardDeduction])

/-- C3: recomputed taxable income (line 15) is clamped at zero for every form
state; the abstract-form taxable-income computation is likewise non-negative;
and the bond-premium reduction step never leaves its target line negative:
it keeps a non-negative line non-negative, and whenever it changes the line at
all the result is non-negative, for every premium and every prior value. -/
theorem c3_taxable_income_clamped_nonnegative :
    (∀ f : Form1040, 0 ≤ orZero (recalculateForm1040Totals f).line15) ∧
    (∀ (f : Form1040) (sd : ℚ), 0 ≤ abstractCalculateTaxableIncome f sd) ∧
    (∀ (bp : ℚ) (v : Option ℚ),
      (0 ≤ orZero v → 0 ≤ orZero (applyBondPremiumStep bp v)) ∧
      (applyBondPremiumStep bp v ≠ v → 0 ≤ orZero (applyBondPremiumStep bp v))) := by
  refine ⟨fun f => ?_, fun f sd => le_max_left _ _, fun bp v => ?_⟩
  · show 0 ≤ orZero (some (max 0 _))
    simp [orZero]
  · unfold applyBondPremiumStep
    split_ifs with h
    · exact ⟨fun _ => by simp [orZero], fun _ => by simp [orZero]⟩
    · exact ⟨id, fun hne => absurd rfl hne⟩

/-- C3 witness: a deduction of 100 against a line-2b value of 30 still leaves
the line non-negative. -/
theorem c3_taxable_income_clamped_nonnegative_witness :
    0 ≤ orZero (applyBondPremiumStep 100 (some 30)) :=
  (c3_taxable_income_clamped_nonnegative.2.2 100 (some 30)).1 (by norm_num [orZero])

/-- C4 counterexample: a document carrying only a bond premium of 100 and a
document carrying only interest income of 50 produce different derived totals
depending on the order in which they are applied to the empty form state
(premium first: total income 50; interest first: the premium floor erases it,
total income 0). -/
theorem c4_order_dependence_counterexample :
    derivedTotals (map1099ToForm1040 c4DocInterest (map1099ToForm1040 c4DocPremium emptyForm)) ≠
      derivedTotals (map1099ToForm1040 c4DocPremium (map1099ToForm1040 c4DocInterest emptyForm)) := by
  norm_num [derivedTotals, map1099ToForm1040, applyDocDeltas, recalculateForm1040Totals,
    c4DocInterest, c4DocPremium, emptyForm, calculateTotalIncome, calculateTaxLiability,
    brackets2023, bracketTaxLoop, jsRound2, min_def, orZero, jsTruthyQ, updAdd, updLine2b,
    updLine8, applyBondPremiumStep]

/-- C4 amended: for documents whose bond-premium amount is not positive (so
the floored subtraction never runs), applying D1 then D2 to the empty form
state yields the same derived totals as applying D2 then D1. -/
theorem c4_order_independence_no_bond_premium (d1 d2 : Doc1099)
    (h1 : ¬ 0 < orZero d1.bondPremium) (h2 : ¬ 0 < orZero d2.bondPremium) :
    derivedTotals (map1099ToForm1040 d2 (map1099ToForm1040 d1 emptyForm)) =
      derivedTotals (map1099ToForm1040 d1 (map1099ToForm1040 d2 emptyForm)) := by
  unfold map1099ToForm1040
  apply derivedTotals_recalc_congr
  case h1 => rfl
  case h2b => exact updLine2b_comm d1 d2 h1 h2 none
  case h3b => exact updAdd_comm _ _ _
  case h4b => rfl
  case h5b => rfl
  case h6b => rfl
  case h7 => exact updAdd_comm _ _ _
  case h8 => exact updLine8_comm d1 d2 none
  case h12 =>
    show (recalculateForm1040Totals (applyDocDeltas d1 emptyForm)).line12 =
      (recalculateForm1040Totals (applyDocDeltas d2 emptyForm)).line12
    rw [recalc_line12_of_no_status _ rfl, recalc_line12_of_no_status _ rfl]
    rfl
  case h13 => rfl
  case hfs => rfl
  case h17 => rfl
  case h23 => rfl
  case h25a => exact updAdd_comm _ _ _
  case h25b => rfl
  case h25c => rfl
  case h25d => rfl

/-- C4 witness: the interest-only and dividends-only documents, neither
carrying a bond premium, commute on the empty form state. -/
theorem c4_order_independence_no_bond_premium_witness :
    derivedTotals (map1099ToForm1040 c4DocDividends (map1099ToForm1040 c4DocInterest emptyForm)) =
      derivedTotals (map1099ToForm1040 c4DocInterest (map1099ToForm1040 c4DocDividends emptyForm)) :=
  c4_order_independence_no_bond_premium c4DocInterest c4DocDividends
    (by norm_num [orZero, c4DocInterest]) (by norm_num [orZero, c4DocDividends])

/-! ## Helper lemmas: MISC reconciliation -/

theorem getMisc_setMisc (d : MiscData) (f g : MiscField) (v : Option ℚ) :
    getMisc (setMisc d f v) g = if g = f then v else getMisc d g := by
  cases f <;> cases g <;> simp [setMisc, getMisc]

/-- A swap-scan iteration preserves a field that already holds its OCR
value: any write it performs installs exactly that value. -/
theorem swapStep_keeps (s o c : MiscData) (p : MiscField × MiscField) (f : MiscField)
    (h : getMisc c f = some (orZero (getMisc o f))) :
    getMisc (miscSwapStep s o c p) f = some (orZero (getMisc o f)) := by
  unfold miscSwapStep
  dsimp only
  split_ifs with h1 h2
  · rw [getMisc_setMisc, getMisc_setMisc]
    by_cases e2 : f = p.2
    · simp [e2]
    · simp only [e2, if_false]
      by_cases e1 : f = p.1
      · simp [e1]
      · simp [e1, h]
  · exact h
  · exact h

/-- When its two conditions hold, a swap-scan iteration installs the OCR
values of both fields of its pair. -/
theorem swapStep_fires (s o c : MiscData) (p : MiscField × MiscField) (hne : p.1 ≠ p.2)
    (hs1 : 0 < orZero (getMisc s p.1)) (hs2 : 0 < orZero (getMisc s p.2))
    (ho1 : 0 < orZero (getMisc o p.1)) (ho2 : 0 < orZero (getMisc o p.2))
    (hd1 : |orZero (getMisc s p.1) - orZero (getMisc o p.2)| < 100)
    (hd2 : |orZero (getMisc s p.2) - orZero (getMisc o p.1)| < 100) :
    getMisc (miscSwapStep s o c p) p.1 = some (orZero (getMisc o p.1)) ∧
    getMisc (miscSwapStep s o c p) p.2 = some (orZero (getMisc o p.2)) := by
  unfold miscSwapStep
  dsimp only
  rw [if_pos ⟨hs1, hs2, ho1, ho2⟩, if_pos ⟨hd1, hd2⟩]
  rw [getMisc_setMisc, getMisc_setMisc, getMisc_setMisc]
  simp [hne, Ne.symm hne]

theorem foldl_swapStep_keeps (s o : MiscData) (ps : List (MiscField × MiscField))
    (c : MiscData) (f : MiscField) (h : getMisc c f = some (orZero (getMisc o f))) :
    getMisc (ps.foldl (miscSwapStep s o) c) f = some (orZero (getMisc o f)) := by
  induction ps generalizing c with
  | nil => exact h
  | cons q qs ih => exact ih _ (swapStep_keeps s o c q f h)

theorem foldl_swapStep_corrects (s o : MiscData) (ps : List (MiscField × MiscField))
    (c : MiscData) (p : MiscField × MiscField) (hp : p ∈ ps) (hne : p.1 ≠ p.2)
    (hs1 : 0 < orZero (getMisc s p.1)) (hs2 : 0 < orZero (getMisc s p.2))
    (ho1 : 0 < orZero (getMisc o p.1)) (ho2 : 0 < orZero (getMisc o p.2))
    (hd1 : |orZero (getMisc s p.1) - orZero (getMisc o p.2)| < 100)
    (hd2 : |orZero (getMisc s p.2) - orZero (getMisc o p.1)| < 100) :
    getMisc (ps.foldl (miscSwapStep s o) c) p.1 = some (orZero (getMisc o p.1)) ∧
    getMisc (ps.foldl (miscSwapStep s o) c) p.2 = some (orZero (getMisc o p.2)) := by
  induction ps generalizing c with
  | nil => cases hp
  | cons q qs ih =>
    rcases List.mem_cons.mp hp with rfl | hmem
    · have hf := swapStep_fires s o c p hne hs1 hs2 ho1 ho2 hd1 hd2
      exact ⟨foldl_swapStep_keeps s o qs _ _ hf.1, foldl_swapStep_keeps s o qs _ _ hf.2⟩
    · exact ih (miscSwapStep s o c q) hmem

/-! ## Claim theorems: MISC reconciliation -/

/-- C5 counterexample: with a structured other-income of 500 and an OCR result
in which every field is absent, the reconciliation overwrites the structured
value with 0 (the `>100 difference` rule fires against the absent-as-zero OCR
value), whereas the rules as the claim states them — rule (2) requiring both
values present, rule (3) keeping the structured value otherwise — would keep
500. -/
theorem c5_reconciliation_counterexample :
    (validateAndCorrect1099MiscFields c5Structured c5Ocr).otherIncome = some 0 ∧
    specReconcileRule (some 500) none = some 500 ∧
    (some (0:ℚ)) ≠ some (500:ℚ) := by
  refine ⟨?_, ?_, by norm_num⟩
  · norm_num [validateAndCorrect1099MiscFields, adjacentBoxPairs, List.foldl, miscSwapStep,
      miscSwapPattern1, firstPassMisc, firstPassField, getMisc, setMisc, c5Structured, c5Ocr,
      orZero, jsTruthyQ, abs_sub_lt_iff]
  · norm_num [specReconcileRule, orZero, jsTruthyQ]

/-- C5 amended: for every critical field, the first reconciliation pass obeys
(1) if the parsed values (absent parsed as zero) differ by more than the fixed
threshold of 100 the text-pattern parsed value is adopted, whether or not
either side is present — in particular an absent text-pattern value overwrites
a structured value larger than 100 with zero; (2) otherwise, if the structured
value is absent or zero and the text-pattern value is positive, the
text-pattern value is adopted; (3) otherwise the structured entry is kept. -/
theorem c5_first_pass_rules (s o : MiscData) (f : MiscField) :
    (100 < |orZero (getMisc s f) - orZero (getMisc o f)| →
      getMisc (firstPassMisc s o) f = some (orZero (getMisc o f))) ∧
    (¬ 100 < |orZero (getMisc s f) - orZero (getMisc o f)| →
      orZero (getMisc s f) = 0 → 0 < orZero (getMisc o f) →
      getMisc (firstPassMisc s o) f = some (orZero (getMisc o f))) ∧
    (¬ 100 < |orZero (getMisc s f) - orZero (getMisc o f)| →
      (orZero (getMisc s f) ≠ 0 ∨ ¬ 0 < orZero (getMisc o f)) →
      getMisc (firstPassMisc s o) f = getMisc s f) := by
  have key : ∀ a b : Option ℚ,
      (100 < |orZero a - orZero b| → firstPassField a b = some (orZero b)) ∧
      (¬ 100 < |orZero a - orZero b| → orZero a = 0 → 0 < orZero b →
        firstPassField a b = some (orZero b)) ∧
      (¬ 100 < |orZero a - orZero b| → (orZero a ≠ 0 ∨ ¬ 0 < orZero b) →
        firstPassField a b = a) := by
    intro a b
    unfold firstPassField jsTruthyQ
    dsimp only
    refine ⟨fun h => by rw [if_pos h], fun h h0 hb => ?_, fun h hkeep => ?_⟩
    · rw [if_neg h, if_pos ⟨Or.inl h0, hb⟩]
    · rw [if_neg h, if_neg ?_]
      rcases hkeep with h0 | hb
      · exact fun hc => absurd (hc.1.resolve_right (not_not_intro h0)) h0
      · exact fun hc => absurd hc.2 hb
  cases f <;> exact key _ _

/-- C5 witness: structured rents 50 against text-pattern rents 260 differ by
more than 100, so the text-pattern value 260 is adopted. -/
theorem c5_first_pass_rules_witness :
    getMisc (firstPassMisc c5WitnessStructured c5WitnessOcr) MiscField.rents = some 260 := by
  have h := (c5_first_pass_rules c5WitnessStructured c5WitnessOcr MiscField.rents).1
    (by norm_num [getMisc, c5WitnessStructured, c5WitnessOcr, orZero, abs_sub_lt_iff])
  rw [h]
  norm_num [getMisc, c5WitnessOcr, orZero]

/-- C6 counterexample: structured Box 3 = 150 / Box 5 = 200 against
text-pattern Box 3 = 210 / Box 5 = 140 is a swap signature (each structured
value within 100 of the other text-pattern value, all four values positive),
yet the reconciliation leaves both fields unchanged — the Box-3/Box-5 pair is
not in the code's adjacent-pair list and the special fishing-boat pattern
requires the structured other-income to be falsy — so the fields are not
corrected to their text-pattern values (150 stays, not 210). -/
theorem c6_swap_signature_counterexample :
    0 < orZero c6Structured.otherIncome ∧ 0 < orZero c6Structured.fishingBoatProceeds ∧
    0 < orZero c6Ocr.otherIncome ∧ 0 < orZero c6Ocr.fishingBoatProceeds ∧
    |orZero c6Structured.fishingBoatProceeds - orZero c6Ocr.otherIncome| < 100 ∧
    |orZero c6Structured.otherIncome - orZero c6Ocr.fishingBoatProceeds| < 100 ∧
    (validateAndCorrect1099MiscFields c6Structured c6Ocr).otherIncome = some 150 ∧
    (validateAndCorrect1099MiscFields c6Structured c6Ocr).fishingBoatProceeds = some 200 ∧
    c6Ocr.otherIncome = some 210 ∧ c6Ocr.fishingBoatProceeds = some 140 ∧
    (some (150:ℚ)) ≠ some (210:ℚ) := by
  norm_num [validateAndCorrect1099MiscFields, adjacentBoxPairs, List.foldl, miscSwapStep,
    miscSwapPattern1, firstPassMisc, firstPassField, getMisc, setMisc, c6Structured, c6Ocr,
    orZero, jsTruthyQ, abs_sub_lt_iff]

/-- C6 amended: for every pair (A, B) in the code's adjacent-pair list
(rents/royalties, royalties/other-income, other-income/federal-withholding,
federal-withholding/fishing-boat, fishing-boat/medical — the Box-5/Box-3 pair
is not among them), when all four parsed values are strictly positive and each
structured value is strictly within 100 of the other field's text-pattern
value, reconciliation corrects both fields to their text-pattern values. -/
theorem c6_adjacent_swap_correction (s o : MiscData) (p : MiscField × MiscField)
    (hp : p ∈ adjacentBoxPairs)
    (hs1 : 0 < orZero (getMisc s p.1)) (hs2 : 0 < orZero (getMisc s p.2))
    (ho1 : 0 < orZero (getMisc o p.1)) (ho2 : 0 < orZero (getMisc o p.2))
    (hd1 : |orZero (getMisc s p.1) - orZero (getMisc o p.2)| < 100)
    (hd2 : |orZero (getMisc s p.2) - orZero (getMisc o p.1)| < 100) :
    getMisc (validateAndCorrect1099MiscFields s o) p.1 = some (orZero (getMisc o p.1)) ∧
    getMisc (validateAndCorrect1099MiscFields s o) p.2 = some (orZero (getMisc o p.2)) := by
  have hne : p.1 ≠ p.2 := by
    fin_cases hp <;> decide
  exact foldl_swapStep_corrects s o adjacentBoxPairs _ p hp hne hs1 hs2 ho1 ho2 hd1 hd2

/-- C6 witness: structured rents 200 / royalties 300 against text-pattern
rents 300 / royalties 200 — the adjacent rents/royalties swap fires and both
fields are corrected to their text-pattern values. -/
theorem c6_adjacent_swap_correction_witness :
    getMisc (validateAndCorrect1099MiscFields c6WitnessStructured c6WitnessOcr)
        MiscField.rents = some 300 ∧
    getMisc (validateAndCorrect1099MiscFields c6WitnessStructured c6WitnessOcr)
        MiscField.royalties = some 200 := by
  have h := c6_adjacent_swap_correction c6WitnessStructured c6WitnessOcr
    (MiscField.rents, MiscField.royalties)
    (by norm_num [adjacentBoxPairs])
    (by norm_num [getMisc, c6WitnessStructured, orZero])
    (by norm_num [getMisc, c6WitnessStructured, orZero])
    (by norm_num [getMisc, c6WitnessOcr, orZero])
    (by norm_num [getMisc, c6WitnessOcr, orZero])
    (by norm_num [getMisc, c6WitnessStructured, c6WitnessOcr, orZero, abs_sub_lt_iff])
    (by norm_num [getMisc, c6WitnessStructured, c6WitnessOcr, orZero, abs_sub_lt_iff])
  refine ⟨?_, ?_⟩
  · rw [h.1]; norm_num [getMisc, c6WitnessOcr, orZero]
  · rw [h.2]; norm_num [getMisc, c6WitnessOcr, orZero]

/-! ## Helper lemmas: classifier -/

/-- The subtype disambiguator can only produce one of the four concrete
subtype labels. -/
theorem detectSpecific1099Type_mem (t : String) :
    detectSpecific1099Type t = "FORM_1099_DIV" ∨ detectSpecific1099Type t = "FORM_1099_INT" ∨
    detectSpecific1099Type t = "FORM_1099_MISC" ∨ detectSpecific1099Type t = "FORM_1099_NEC" := by
  unfold detectSpecific1099Type formTypePatterns
  dsimp only [List.foldl]
  split_ifs <;> simp

/-! ## Claim theorems: document classifier -/

/-- C7 counterexample: on the text `Form W-2 Payer` the W2 and 1099 keyword
lists each score exactly one hit — a tie, with the wage-statement list scoring
above zero — yet the classifier returns `1099`, not the first-declared W2
category, so ties are not broken by declaration order. -/
theorem c7_tie_break_counterexample :
    countHits (strToLower "Form W-2 Payer") w2Indicators =
      countHits (strToLower "Form W-2 Payer") form1099Indicators ∧
    0 < countHits (strToLower "Form W-2 Payer") w2Indicators ∧
    detectFormType "Form W-2 Payer" = "1099" ∧
    ("1099" : String) ≠ "W2" := by decide

/-- C7 amended: the classifier counts case-insensitive substring hits per
keyword list; the strictly higher count wins, but a tie with a positive 1099
score resolves to the 1099 family (not to the first-declared wage-statement
category); when both counts are zero it returns UNKNOWN; it is a total
function whose results range over the closed set of labels, and the full
OCR-type analysis likewise always returns one of the closed set of labels. -/
theorem c7_classifier_behavior (t : String) :
    (countHits (strToLower t) form1099Indicators < countHits (strToLower t) w2Indicators →
      detectFormType t = "W2") ∧
    (countHits (strToLower t) w2Indicators ≤ countHits (strToLower t) form1099Indicators ∧
      0 < countHits (strToLower t) form1099Indicators →
      detectFormType t = "1099") ∧
    (countHits (strToLower t) w2Indicators = 0 ∧
      countHits (strToLower t) form1099Indicators = 0 →
      detectFormType t = "UNKNOWN") ∧
    (detectFormType t = "W2" ∨ detectFormType t = "1099" ∨ detectFormType t = "UNKNOWN") ∧
    (analyzeDocumentTypeFromOCR t = "W2" ∨
     analyzeDocumentTypeFromOCR t = "FORM_1099_DIV" ∨
     analyzeDocumentTypeFromOCR t = "FORM_1099_INT" ∨
     analyzeDocumentTypeFromOCR t = "FORM_1099_MISC" ∨
     analyzeDocumentTypeFromOCR t = "FORM_1099_NEC" ∨
     analyzeDocumentTypeFromOCR t = "UNKNOWN") := by
  have hmem := detectSpecific1099Type_mem t
  unfold analyzeDocumentTypeFromOCR detectFormType
  dsimp only
  split_ifs <;> simp_all <;>
    first
    | omega
    | exact ⟨by omega, by tauto⟩

/-- C7 witness: a text hitting only wage-statement keywords classifies as
W2. -/
theorem c7_classifier_behavior_witness :
    detectFormType "form w-2 wage and tax statement" = "W2" :=
  (c7_classifier_behavior "form w-2 wage and tax statement").1 (by decide)

/-- C10: for every input text the 1099 subtype disambiguator returns one of
the four concrete subtypes, never an unknown result; the returned subtype has
a maximal indicator score; and when every subtype scores zero it returns
FORM_1099_MISC by default. -/
theorem c10_subtype_disambiguation (t : String) :
    (detectSpecific1099Type t = "FORM_1099_DIV" ∨ detectSpecific1099Type t = "FORM_1099_INT" ∨
     detectSpecific1099Type t = "FORM_1099_MISC" ∨ detectSpecific1099Type t = "FORM_1099_NEC") ∧
    (detectSpecific1099Type t = "FORM_1099_DIV" →
      countHits (strToLower t) int1099Indicators ≤ countHits (strToLower t) div1099Indicators ∧
      countHits (strToLower t) misc1099Indicators ≤ countHits (strToLower t) div1099Indicators ∧
      countHits (strToLower t) nec1099Indicators ≤ countHits (strToLower t) div1099Indicators) ∧
    (detectSpecific1099Type t = "FORM_1099_INT" →
      countHits (strToLower t) div1099Indicators ≤ countHits (strToLower t) int1099Indicators ∧
      countHits (strToLower t) misc1099Indicators ≤ countHits (strToLower t) int1099Indicators ∧
      countHits (strToLower t) nec1099Indicators ≤ countHits (strToLower t) int1099Indicators) ∧
    (detectSpecific1099Type t = "FORM_1099_MISC" →
      countHits (strToLower t) div1099Indicators ≤ countHits (strToLower t) misc1099Indicators ∧
      countHits (strToLower t) int1099Indicators ≤ countHits (strToLower t) misc1099Indicators ∧
      countHits (strToLower t) nec1099Indicators ≤ countHits (strToLower t) misc1099Indicators) ∧
    (detectSpecific1099Type t = "FORM_1099_NEC" →
      countHits (strToLower t) div1099Indicators ≤ countHits (strToLower t) nec1099Indicators ∧
      countHits (strToLower t) int1099Indicators ≤ countHits (strToLower t) nec1099Indicators ∧
      countHits (strToLower t) misc1099Indicators ≤ countHits (strToLower t) nec1099Indicators) ∧
    (countHits (strToLower t) div1099Indicators = 0 ∧
     countHits (strToLower t) int1099Indicators = 0 ∧
     countHits (strToLower t) misc1099Indicators = 0 ∧
     countHits (strToLower t) nec1099Indicators = 0 →
      detectSpecific1099Type t = "FORM_1099_MISC") := by
  unfold detectSpecific1099Type formTypePatterns
  dsimp only [List.foldl]
  split_ifs <;> simp_all <;> omega

/-- C10 witness: the empty text scores zero on every subtype list and falls
back to FORM_1099_MISC. -/
theorem c10_subtype_disambiguation_witness :
    detectSpecific1099Type "" = "FORM_1099_MISC" :=
  (c10_subtype_disambiguation "").2.2.2.2.2 (by decide)

/-! ## Claim theorems: 1099-INT text-pattern extraction -/

/-- On the empty text the Box 1 section pattern does not match. -/
theorem findBoxSection_empty_interest :
    findBoxSection "" "1" interestIncomeLabel "2" = none := by
  have h : litToks "1" ++ [PatToken.wsp] ++ interestIncomeLabel =
      PatToken.lit '1' :: ([PatToken.wsp] ++ interestIncomeLabel) := rfl
  unfold findBoxSection
  rw [show ("" : String).toList = [] from rfl, h, scanMatch]
  simp only [matchToks]

/-- C8 counterexample: on the empty text no pattern matches the
taxable-interest field, yet the extractor's output carries the field as
present with value zero (`some 0`), not absent (`none`), so a present-but-zero
value and an absent value are not distinguishable downstream. -/
theorem c8_absent_vs_zero_counterexample :
    findBoxSection "" "1" interestIncomeLabel "2" = none ∧
    (extract1099IntFieldsFromOCR "" emptyIntFields).interestIncome = some 0 ∧
    (some (0:ℚ)) ≠ (none : Option ℚ) := by
  refine ⟨findBoxSection_empty_interest, ?_, by simp⟩
  show some (extractFieldValue "" "1" interestIncomeLabel "2") = some 0
  unfold extractFieldValue
  rw [findBoxSection_empty_interest]

/-- C8 amended: for every raw text, every canonical numeric field of the
1099-INT text-pattern extractor is present in the output — a field whose
box pattern does not match is assigned the value 0 rather than left absent,
so absence and zero are conflated at the reconciliation stage. -/
theorem c8_int_fields_always_present (ocrText : String) (base : Int1099Fields) :
    (∀ (box : String) (label : List PatToken) (next : String),
      findBoxSection ocrText box label next = none →
      extractFieldValue ocrText box label next = 0) ∧
    ((extract1099IntFieldsFromOCR ocrText base).interestIncome).isSome = true ∧
    ((extract1099IntFieldsFromOCR ocrText base).earlyWithdrawalPenalty).isSome = true ∧
    ((extract1099IntFieldsFromOCR ocrText base).interestOnUSavingsBonds).isSome = true ∧
    ((extract1099IntFieldsFromOCR ocrText base).federalTaxWithheld).isSome = true ∧
    ((extract1099IntFieldsFromOCR ocrText base).investmentExpenses).isSome = true ∧
    ((extract1099IntFieldsFromOCR ocrText base).foreignTaxPaid).isSome = true ∧
    ((extract1099IntFieldsFromOCR ocrText base).taxExemptInterest).isSome = true ∧
    ((extract1099IntFieldsFromOCR ocrText base).specifiedPrivateActivityBondInterest).isSome = true ∧
    ((extract1099IntFieldsFromOCR ocrText base).marketDiscount).isSome = true ∧
    ((extract1099IntFieldsFromOCR ocrText base).bondPremium).isSome = true ∧
    ((extract1099IntFieldsFromOCR ocrText base).stateTaxWithheld).isSome = true ∧
    ((extract1099IntFieldsFromOCR ocrText base).stateInterest).isSome = true := by
  refine ⟨fun box label next h => ?_, rfl, rfl, rfl, rfl, rfl, rfl, rfl, rfl, rfl, rfl, rfl, rfl⟩
  unfold extractFieldValue
  rw [h]

/-- C8 witness: the no-match-gives-zero rule and the presence of the taxable
interest field, instantiated on the empty text. -/
theorem c8_int_fields_always_present_witness :
    extractFieldValue "" "1" interestIncomeLabel "2" = 0 ∧
    ((extract1099IntFieldsFromOCR "" emptyIntFields).interestIncome).isSome = true :=
  ⟨(c8_int_fields_always_present "" emptyIntFields).1 "1" interestIncomeLabel "2"
      findBoxSection_empty_interest,
    (c8_int_fields_always_present "" emptyIntFields).2.1⟩

/-! ## Helper lemmas: record selection -/

/-- The scoring fold returns a member of the candidate list whose composite
score is maximal. -/
theorem pickBest_spec (target : Option String) (r0 : EmployeeRecord)
    (rs : List EmployeeRecord) :
    pickBest target r0 rs ∈ r0 :: rs ∧
    ∀ r' ∈ r0 :: rs, scoreRecord target r' ≤ scoreRecord target (pickBest target r0 rs) := by
  induction rs generalizing r0 with
  | nil =>
    refine ⟨List.mem_singleton_self r0, ?_⟩
    intro r' hr'
    rw [List.mem_singleton] at hr'
    subst hr'
    exact le_refl _
  | cons r1 rs ih =>
    by_cases hc : scoreRecord target r0 < scoreRecord target r1
    · have step : pickBest target r0 (r1 :: rs) = pickBest target r1 rs := by
        simp [pickBest, List.foldl, hc]
      obtain ⟨hmem, hmax⟩ := ih r1
      rw [step]
      refine ⟨List.mem_cons_of_mem r0 hmem, ?_⟩
      intro r' hr'
      rcases List.mem_cons.mp hr' with rfl | hr'
      · exact le_trans (le_of_lt hc) (hmax r1 (List.mem_cons_self _ _))
      · exact hmax r' hr'
    · have step : pickBest target r0 (r1 :: rs) = pickBest target r0 rs := by
        simp [pickBest, List.foldl, hc]
      obtain ⟨hmem, hmax⟩ := ih r0
      rw [step]
      constructor
      · rcases List.mem_cons.mp hmem with h | h
        · rw [h]; exact List.mem_cons_self _ _
        · exact List.mem_cons_of_mem _ (List.mem_cons_of_mem _ h)
      · intro r' hr'
        rcases List.mem_cons.mp hr' with rfl | hr'
        · exact hmax r' (List.mem_cons_self _ _)
        · rcases List.mem_cons.mp hr' with rfl | hr'
          · exact le_trans (le_of_not_lt hc) (hmax r0 (List.mem_cons_self _ _))
          · exact hmax r' (List.mem_cons_of_mem _ hr')

/-! ## Claim theorems: record selection -/

/-- C9: with a non-empty target name and a non-empty record list, if some
record's name matches the target (exactly or by word subset) then selection
returns a matching record from the list — the first such record, wherever it
sits in the list; and only when no record matches does selection fall back to
the composite score, returning a record whose score is maximal among the
candidates. -/
theorem c9_target_match_priority (records : List EmployeeRecord) (t : String) (ht : t ≠ "")
    (hne : records ≠ []) :
    ((∃ r ∈ records, recordMatches t r = true) →
      ∃ r ∈ records, selectPrimaryEmployeeRecord records (some t) = some r ∧
        recordMatches t r = true) ∧
    ((∀ r ∈ records, recordMatches t r = false) → 2 ≤ records.length →
      ∃ r ∈ records, selectPrimaryEmployeeRecord records (some t) = some r ∧
        ∀ r' ∈ records, scoreRecord (some t) r' ≤ scoreRecord (some t) r) := by
  have htruthy : jsTruthyS (some t) := by simpa [jsTruthyS] using ht
  constructor
  · rintro ⟨r, hr, hmatch⟩
    match records, hne with
    | [r0], _ =>
      refine ⟨r0, List.mem_singleton_self r0, rfl, ?_⟩
      rw [List.mem_singleton] at hr
      subst hr
      exact hmatch
    | r0 :: r1 :: rest, _ =>
      have hfind : ((r0 :: r1 :: rest).find? (recordMatches t)).isSome := by
        rw [List.find?_isSome]
        exact ⟨r, hr, hmatch⟩
      obtain ⟨rf, hrf⟩ := Option.isSome_iff_exists.mp hfind
      refine ⟨rf, List.mem_of_find?_eq_some hrf, ?_, List.find?_some hrf⟩
      show selectPrimaryEmployeeRecord (r0 :: r1 :: rest) (some t) = some rf
      unfold selectPrimaryEmployeeRecord
      dsimp only
      rw [if_pos htruthy]
      simp only [Option.getD_some]
      rw [hrf]
  · intro hnone hlen
    match records, hne, hlen with
    | r0 :: r1 :: rest, _, _ =>
      have hfind : (r0 :: r1 :: rest).find? (recordMatches t) = none := by
        rw [List.find?_eq_none]
        intro x hx
        simp [hnone x hx]
      obtain ⟨hmem, hmax⟩ := pickBest_spec (some t) r0 (r1 :: rest)
      refine ⟨pickBest (some t) r0 (r1 :: rest), hmem, ?_, hmax⟩
      show selectPrimaryEmployeeRecord (r0 :: r1 :: rest) (some t) = _
      unfold selectPrimaryEmployeeRecord
      dsimp only
      rw [if_pos htruthy]
      simp only [Option.getD_some]
      rw [hfind]

/-- C9 witness: two detected blocks, target "Jordan Blake" matching the second
block — selection returns a matching record even though it is not first. -/
theorem c9_target_match_priority_witness :
    ∃ r ∈ [demoRecordA, demoRecordB],
      selectPrimaryEmployeeRecord [demoRecordA, demoRecordB] (some "Jordan Blake") = some r ∧
        recordMatches "Jordan Blake" r = true :=
  (c9_target_match_priority [demoRecordA, demoRecordB] "Jordan Blake" (by decide)
    (List.cons_ne_nil _ _)).1 ⟨demoRecordB, by decide, by decide⟩
